import Mathlib

/-!
Shallow embedding of the TikTok downloader service in `src/app.py`.

Time is modelled as a rational number (`time.time()` values), the filesystem as
explicit lists or predicates, and each handler as a pure function of its inputs
and the mutable state it touches.  The `yt_dlp` library call itself is external:
its outcome (metadata info dict, or an `ExtractorError` message string) is a
parameter of the post-extraction functions.
-/

namespace TikTokApi

/-- Boolean substring containment on lists of characters, the semantics of the
Python expression `sub in s`. -/
def charsContain : List Char → List Char → Bool
  | [], need => need.isEmpty
  | c :: rest, need => need.isPrefixOf (c :: rest) || charsContain rest need

/-- The Python membership test `sub in s` on strings: `sub` occurs as a
contiguous substring of `s`. -/
def strContains (s sub : String) : Bool :=
  charsContain s.toList sub.toList

/-- The allow-list of source domains from `download_video`
(`valid_domains = ['tiktok.com', 'vm.tiktok.com', 'vt.tiktok.com']`). -/
def valid_domains : List String :=
  ["tiktok.com", "vm.tiktok.com", "vt.tiktok.com"]

/-- The managed download directory (`DOWNLOAD_DIR = '/tmp/downloads'`). -/
def DOWNLOAD_DIR : String := "/tmp/downloads"

/-- Two-argument `os.path.join` with POSIX semantics: an absolute second
component discards the first; otherwise the pieces are joined with a single
separator. -/
def path_join (a b : String) : String :=
  if b.toList.head? = some '/' then b
  else if a == "" || a.toList.getLast? = some '/' then a ++ b
  else a ++ "/" ++ b

/-- The last path component, as `os.path.basename`. -/
def basename (p : String) : String :=
  (p.splitOn "/").getLastD p

/-! ## RateLimiter (src/app.py lines 74-100) -/

/-- State of the `RateLimiter` class: configuration plus the list of
request timestamps (`self.requests`), in insertion order. -/
structure RateLimiter where
  max_requests : ℕ
  time_window : ℚ
  requests : List ℚ
deriving DecidableEq

/-- Outcome of one `check_rate_limit` call: either the request is admitted, or
an HTTP 429 is raised carrying the computed wait time.  Both constructors carry
the limiter state as left by the call (the purge on line 84 mutates
`self.requests` even when the request is then rejected). -/
inductive RateResult where
  | limited (retry_after : ℚ) (st : RateLimiter)
  | admitted (st : RateLimiter)
deriving DecidableEq

/-- The limiter state after a `check_rate_limit` call. -/
def RateResult.state : RateResult → RateLimiter
  | .limited _ st => st
  | .admitted st => st

/-- `RateLimiter.check_rate_limit`: purge timestamps older than the window,
raise 429 with `wait_time = time_window - (now - requests[0])` when the
retained count has reached `max_requests`, otherwise append `now`. -/
def check_rate_limit (rl : RateLimiter) (now : ℚ) : RateResult :=
  let reqs := rl.requests.filter (fun r => decide (now - r < rl.time_window))
  if rl.max_requests ≤ reqs.length then
    .limited (rl.time_window - (now - reqs.headD 0)) ⟨rl.max_requests, rl.time_window, reqs⟩
  else
    .admitted ⟨rl.max_requests, rl.time_window, reqs ++ [now]⟩

/-- The module-level singleton `rate_limiter = RateLimiter(max_requests=5,
time_window=60)`, shared by every request. -/
def rate_limiter_init : RateLimiter := ⟨5, 60, []⟩

/-! ## cleanup_old_files (src/app.py lines 58-72) -/

/-- One directory entry as seen by the sweep: its name, whether
`os.path.isfile` holds, its modification time, and whether `os.remove` on it
succeeds (`removable = false` models a permission error raising `OSError`). -/
structure FileEntry where
  name : String
  isFile : Bool
  mtime : ℚ
  removable : Bool
deriving DecidableEq

/-- `cleanup_old_files`: iterate the directory listing, removing regular files
whose age exceeds 1800 seconds.  The `try` block wraps the whole loop, so an
exception raised by one `os.remove` stops the iteration; the handler only logs,
so the caller proceeds with the remaining entries intact. -/
def cleanup_old_files (now : ℚ) : List FileEntry → List FileEntry
  | [] => []
  | f :: fs =>
    if f.isFile && decide (1800 < now - f.mtime) then
      if f.removable then cleanup_old_files now fs
      else f :: fs
    else f :: cleanup_old_files now fs

/-! ## download_video, pre-backend pipeline (src/app.py lines 155-203) -/

/-- Outcome of `download_video` up to (and excluding) the `yt_dlp` call:
the request is answered early with a JSON error, or proceeds to extraction. -/
inductive PreOutcome where
  | rateLimited (retry_after : ℚ)
  | noUrl
  | invalidUrl
  | photoPost
  | extract (url : String)
deriving DecidableEq

/-- HTTP status of each early response (`extract` produces no early
response). -/
def PreOutcome.statusCode : PreOutcome → Option ℕ
  | .rateLimited _ => some 429
  | .noUrl => some 400
  | .invalidUrl => some 400
  | .photoPost => some 400
  | .extract _ => none

/-- The `error` field of each early JSON response. -/
def PreOutcome.errorMsg : PreOutcome → Option String
  | .rateLimited _ => some "Too many requests"
  | .noUrl => some "No URL provided"
  | .invalidUrl => some "Invalid TikTok URL"
  | .photoPost =>
      some "TikTok photo posts (slideshows) are not supported. Please try a video post instead."
  | .extract _ => none

/-- Whether the pipeline reached the backend (`yt_dlp`) call. -/
def PreOutcome.invokesBackend : PreOutcome → Bool
  | .extract _ => true
  | _ => false

/-- The `download_video` handler up to the `yt_dlp` invocation.  The body is
`none` when the request JSON has no `url` key, `some url` otherwise.  Order of
operations, as in the source: rate-limit check first (line 161; it mutates the
shared limiter), then stale-file cleanup (modelled separately, it does not
affect this outcome), then body parsing and URL checks (lines 169-196).
Returns the outcome together with the limiter state after the call. -/
def download_pre (rl : RateLimiter) (now : ℚ) (body : Option String) :
    PreOutcome × RateLimiter :=
  match check_rate_limit rl now with
  | .limited w st => (.rateLimited w, st)
  | .admitted st =>
    match body with
    | none => (.noUrl, st)
    | some url =>
      if !(valid_domains.any (fun d => strContains url d)) then (.invalidUrl, st)
      else if strContains url "/photo/" then (.photoPost, st)
      else (.extract url, st)

/-- The limiter state left behind by one `download_video` call that returned
before or at the backend step. -/
def downloadAfter (rl : RateLimiter) (now : ℚ) (body : Option String) : RateLimiter :=
  (download_pre rl now body).2

/-! ## ExtractorError classification (src/app.py lines 270-318) -/

/-- Shape of an early error JSON response from the `ExtractorError` handler:
HTTP status, the `error` field, and the optional `message` and `solutions`
fields. -/
structure ErrResponse where
  status : ℕ
  error : String
  message : Option String
  solutions : List String
deriving DecidableEq

/-- The `except yt_dlp.utils.ExtractorError` handler: map the error message
`error_msg` (and whether `cookies.txt` exists) to a JSON response, by
case-sensitive substring tests in source order. -/
def handle_extractor_error (error_msg : String) (cookies_exists : Bool) : ErrResponse :=
  if strContains error_msg "Unable to extract webpage video data" then
    if !cookies_exists then
      { status := 503
        error := "TikTok extraction failed - Cookies required"
        message := some "This error occurs because TikTok blocks automated requests. The server needs a cookies.txt file to work."
        solutions :=
          ["Server administrator needs to add cookies.txt file",
           "Cookies should be exported from a logged-in TikTok session",
           "Cookies expire every few hours and need regular updates"] }
    else
      { status := 503
        error := "TikTok extraction failed - Cookies may be expired"
        message := some "The cookies file exists but may be outdated. TikTok cookies expire frequently."
        solutions :=
          ["Update cookies.txt with fresh cookies from browser",
           "Ensure you\x27re logged into TikTok when exporting cookies",
           "Try again in a few minutes (TikTok may be rate limiting)"] }
  else if strContains error_msg "Private video" then
    { status := 403, error := "This video is private", message := none, solutions := [] }
  else if strContains error_msg "Video unavailable" || strContains error_msg "404" then
    { status := 404, error := "Video not found or has been deleted", message := none, solutions := [] }
  else
    { status := 500, error := "Download failed: " ++ error_msg, message := none, solutions := [] }

/-! ## Success path (src/app.py lines 200-203 and 320-351) -/

/-- The metadata dict returned by `ydl.extract_info`, restricted to the keys
the handler reads.  Optional fields model `info.get(key, default)`. -/
structure MediaInfo where
  title : Option String
  uploader : Option String
  creator : Option String
  description : Option String
  thumbnail : Option String
  id : String
  ext : String
deriving DecidableEq

/-- The success JSON response of `download_video` (lines 341-351), with HTTP
status 200. -/
structure SuccessResponse where
  status : ℕ
  success : Bool
  video : String
  full_url : String
  title : String
  author : String
  caption : String
  thumbnail : String
  filename : String
  message : String
deriving DecidableEq

/-- The filename generated at lines 201-202: `tiktok_` plus the first eight
characters of a fresh UUID, with the `.mp4` suffix.  The random token is a
parameter here. -/
def make_output_filename (unique_id : String) : String :=
  "tiktok_" ++ unique_id ++ ".mp4"

/-- Assembles the success JSON from the metadata and the final filename,
with the `info.get` defaults of lines 260-263. -/
def success_response (base_url : String) (info : MediaInfo) (output_filename : String) :
    SuccessResponse :=
  { status := 200
    success := true
    video := "/files/" ++ output_filename
    full_url := base_url ++ "/files/" ++ output_filename
    title := info.title.getD "TikTok Video"
    author := info.uploader.getD (info.creator.getD "Unknown")
    caption := info.description.getD "No caption available"
    thumbnail := info.thumbnail.getD ""
    filename := output_filename
    message := "Video downloaded successfully" }

/-- The post-download tail of `download_video` (lines 320-351): verify the
expected output file exists, falling back to the path the library reports
having written (`actual_filename = ydl.prepare_filename(info)`); `none` models
the 500 "Video file not found after download" response.  `exists_at` is the
`os.path.exists` oracle. -/
def download_success (base_url : String) (info : MediaInfo) (unique_id : String)
    (actual_filename : String) (exists_at : String → Bool) : Option SuccessResponse :=
  let output_filename := make_output_filename unique_id
  let output_path := path_join DOWNLOAD_DIR output_filename
  if exists_at output_path then
    some (success_response base_url info output_filename)
  else if exists_at actual_filename then
    some (success_response base_url info (basename actual_filename))
  else
    none

/-! ## serve_file (src/app.py lines 362-394) -/

/-- Outcome of `serve_file`: a 404 JSON, or a `FileResponse` streaming the
resolved path. -/
inductive ServeOutcome where
  | notFound
  | served (path : String)
deriving DecidableEq

/-- The `serve_file` handler: join the filename onto the managed directory and
serve it if it exists.  No filename is rejected for its shape. -/
def serve_file (filename : String) (exists_at : String → Bool) : ServeOutcome :=
  let filepath := path_join DOWNLOAD_DIR filename
  if exists_at filepath then .served filepath else .notFound

/-! ## Spec-side definitions, used only to compare the code against the
specification wording of §4.1 (host-based validation). -/

/-- Modelled from the spec: the host component of a URL, namely the text
between the `://` scheme separator and the next path, query or fragment
delimiter. -/
def dropScheme : List Char → List Char
  | ':' :: '/' :: '/' :: rest => rest
  | _ :: rest => dropScheme rest
  | [] => []

/-- Modelled from the spec: extract the host of a URL string. -/
def hostOf (url : String) : String :=
  String.mk ((dropScheme url.toList).takeWhile
    (fun c => !(c == '/' || c == '?' || c == '#' || c == ':')))

/-- Modelled from the spec: a host matches an allow-listed domain when it
equals the domain or is a subdomain of it. -/
def hostMatches (host domain : String) : Bool :=
  host == domain || ("." ++ domain).toList.isSuffixOf host.toList

/-! ## Helper lemmas about the rate limiter and the pipeline -/

/-- Helper: when every recorded timestamp is still inside the window and the
count is below the limit, the check admits and appends the current time. -/
theorem check_rate_limit_admitted (rl : RateLimiter) (now : ℚ)
    (h1 : ∀ r ∈ rl.requests, now - r < rl.time_window)
    (h2 : rl.requests.length < rl.max_requests) :
    check_rate_limit rl now =
      .admitted ⟨rl.max_requests, rl.time_window, rl.requests ++ [now]⟩ := by
  have hf : rl.requests.filter (fun r => decide (now - r < rl.time_window)) = rl.requests :=
    List.filter_eq_self.mpr fun a ha => decide_eq_true (h1 a ha)
  simp only [check_rate_limit, hf]
  rw [if_neg (Nat.not_le.mpr h2)]

/-- Helper: when every recorded timestamp is still inside the window and the
count has reached the limit, the check rejects with the wait time computed
from the oldest retained timestamp. -/
theorem check_rate_limit_limited (rl : RateLimiter) (now : ℚ)
    (h1 : ∀ r ∈ rl.requests, now - r < rl.time_window)
    (h2 : rl.max_requests ≤ rl.requests.length) :
    check_rate_limit rl now =
      .limited (rl.time_window - (now - rl.requests.headD 0))
        ⟨rl.max_requests, rl.time_window, rl.requests⟩ := by
  have hf : rl.requests.filter (fun r => decide (now - r < rl.time_window)) = rl.requests :=
    List.filter_eq_self.mpr fun a ha => decide_eq_true (h1 a ha)
  simp only [check_rate_limit, hf]
  rw [if_pos h2]

/-- Helper: when every recorded timestamp has aged out of the window, the
purge empties the list and (for a positive limit) the check admits. -/
theorem check_rate_limit_reset (rl : RateLimiter) (now : ℚ)
    (h1 : ∀ r ∈ rl.requests, rl.time_window ≤ now - r)
    (h2 : 0 < rl.max_requests) :
    check_rate_limit rl now = .admitted ⟨rl.max_requests, rl.time_window, [now]⟩ := by
  have hf : rl.requests.filter (fun r => decide (now - r < rl.time_window)) = [] :=
    List.filter_eq_nil_iff.mpr fun a ha => by
      simp only [decide_eq_true_eq]
      exact not_lt.mpr (h1 a ha)
  simp only [check_rate_limit, hf]
  rw [if_neg (by simp; omega)]
  rfl

/-- Helper: the limiter state left by `download_video` is exactly the state
left by `check_rate_limit`, whatever the body holds. -/
theorem download_pre_state (rl : RateLimiter) (now : ℚ) (body : Option String) :
    (download_pre rl now body).2 = (check_rate_limit rl now).state := by
  unfold download_pre
  cases hc : check_rate_limit rl now with
  | limited w st => rfl
  | admitted st =>
    cases body with
    | none => rfl
    | some url =>
      dsimp only [RateResult.state]
      split
      · rfl
      · split <;> rfl

/-- Helper: a rejected admission short-circuits the handler with a 429 for
every body. -/
theorem download_pre_limited (rl st : RateLimiter) (now w : ℚ) (body : Option String)
    (hc : check_rate_limit rl now = .limited w st) :
    download_pre rl now body = (.rateLimited w, st) := by
  unfold download_pre
  rw [hc]

/-- Helper: an admitted request whose URL contains no allow-listed domain
string is answered with the invalid-URL response. -/
theorem download_pre_invalid (rl st : RateLimiter) (now : ℚ) (url : String)
    (hc : check_rate_limit rl now = .admitted st)
    (hv : (valid_domains.any fun d => strContains url d) = false) :
    download_pre rl now (some url) = (.invalidUrl, st) := by
  unfold download_pre
  rw [hc]
  simp [hv]

/-- Helper: an admitted request whose URL contains an allow-listed domain
string and the photo marker is answered with the photo-post response. -/
theorem download_pre_photo (rl st : RateLimiter) (now : ℚ) (url : String)
    (hc : check_rate_limit rl now = .admitted st)
    (hv : (valid_domains.any fun d => strContains url d) = true)
    (hp : strContains url "/photo/" = true) :
    download_pre rl now (some url) = (.photoPost, st) := by
  unfold download_pre
  rw [hc]
  simp [hv, hp]

/-! ## Claim theorems -/

/-- C5: the rate limiter is sliding-window counting as the spec states it:
with the deployed configuration (5 requests per 60 seconds), five admissions
at times t1 ≤ ... ≤ t5 all succeed (each check purges nothing and appends its
timestamp), a sixth check at time u still inside the window of the first fails
with retryAfterSeconds = 60 - (u - t1) > 0 computed from the oldest retained
timestamp, and once the window has elapsed past the newest timestamp an
admission at time v succeeds again (all old entries purged). -/
theorem rate_limiter_sliding_window
    (t1 t2 t3 t4 t5 u v : ℚ)
    (h12 : t1 ≤ t2) (h23 : t2 ≤ t3) (h34 : t3 ≤ t4) (h45 : t4 ≤ t5) (h5u : t5 ≤ u)
    (hu : u - t1 < 60) (hv : 60 ≤ v - t5) :
    check_rate_limit ⟨5, 60, []⟩ t1 = .admitted ⟨5, 60, [t1]⟩ ∧
    check_rate_limit ⟨5, 60, [t1]⟩ t2 = .admitted ⟨5, 60, [t1, t2]⟩ ∧
    check_rate_limit ⟨5, 60, [t1, t2]⟩ t3 = .admitted ⟨5, 60, [t1, t2, t3]⟩ ∧
    check_rate_limit ⟨5, 60, [t1, t2, t3]⟩ t4 = .admitted ⟨5, 60, [t1, t2, t3, t4]⟩ ∧
    check_rate_limit ⟨5, 60, [t1, t2, t3, t4]⟩ t5 = .admitted ⟨5, 60, [t1, t2, t3, t4, t5]⟩ ∧
    check_rate_limit ⟨5, 60, [t1, t2, t3, t4, t5]⟩ u
      = .limited (60 - (u - t1)) ⟨5, 60, [t1, t2, t3, t4, t5]⟩ ∧
    0 < 60 - (u - t1) ∧
    check_rate_limit ⟨5, 60, [t1, t2, t3, t4, t5]⟩ v = .admitted ⟨5, 60, [v]⟩ := by
  have ht2u : t2 ≤ u := le_trans h23 (le_trans h34 (le_trans h45 h5u))
  have ht3u : t3 ≤ u := le_trans h34 (le_trans h45 h5u)
  have ht4u : t4 ≤ u := le_trans h45 h5u
  refine ⟨?_, ?_, ?_, ?_, ?_, ?_, by linarith, ?_⟩
  · exact check_rate_limit_admitted ⟨5, 60, []⟩ t1 (by simp) (by simp)
  · exact check_rate_limit_admitted ⟨5, 60, [t1]⟩ t2
      (by intro r hr; simp at hr; subst hr; show _ - _ < (60 : ℚ); linarith) (by simp)
  · exact check_rate_limit_admitted ⟨5, 60, [t1, t2]⟩ t3
      (by intro r hr; simp at hr
          rcases hr with rfl | rfl <;> show _ - _ < (60 : ℚ) <;> linarith) (by simp)
  · exact check_rate_limit_admitted ⟨5, 60, [t1, t2, t3]⟩ t4
      (by intro r hr; simp at hr
          rcases hr with rfl | rfl | rfl <;> show _ - _ < (60 : ℚ) <;> linarith) (by simp)
  · exact check_rate_limit_admitted ⟨5, 60, [t1, t2, t3, t4]⟩ t5
      (by intro r hr; simp at hr
          rcases hr with rfl | rfl | rfl | rfl <;> show _ - _ < (60 : ℚ) <;> linarith)
      (by simp)
  · exact check_rate_limit_limited ⟨5, 60, [t1, t2, t3, t4, t5]⟩ u
      (by intro r hr; simp at hr
          rcases hr with rfl | rfl | rfl | rfl | rfl <;> show _ - _ < (60 : ℚ) <;> linarith)
      (by simp)
  · exact check_rate_limit_reset ⟨5, 60, [t1, t2, t3, t4, t5]⟩ v
      (by intro r hr; simp at hr
          rcases hr with rfl | rfl | rfl | rfl | rfl <;> show (60 : ℚ) ≤ _ - _ <;> linarith)
      (by simp)

/-- Witness for C5 at t1 = ... = t5 = 0, u = 30, v = 60. -/
theorem rate_limiter_sliding_window_witness :
    check_rate_limit ⟨5, 60, []⟩ (0 : ℚ) = .admitted ⟨5, 60, [0]⟩ ∧
    check_rate_limit ⟨5, 60, [0]⟩ (0 : ℚ) = .admitted ⟨5, 60, [0, 0]⟩ ∧
    check_rate_limit ⟨5, 60, [0, 0]⟩ (0 : ℚ) = .admitted ⟨5, 60, [0, 0, 0]⟩ ∧
    check_rate_limit ⟨5, 60, [0, 0, 0]⟩ (0 : ℚ) = .admitted ⟨5, 60, [0, 0, 0, 0]⟩ ∧
    check_rate_limit ⟨5, 60, [0, 0, 0, 0]⟩ (0 : ℚ) = .admitted ⟨5, 60, [0, 0, 0, 0, 0]⟩ ∧
    check_rate_limit ⟨5, 60, [0, 0, 0, 0, 0]⟩ (30 : ℚ)
      = .limited (60 - (30 - 0)) ⟨5, 60, [0, 0, 0, 0, 0]⟩ ∧
    (0 : ℚ) < 60 - (30 - 0) ∧
    check_rate_limit ⟨5, 60, [0, 0, 0, 0, 0]⟩ (60 : ℚ) = .admitted ⟨5, 60, [60]⟩ :=
  rate_limiter_sliding_window 0 0 0 0 0 30 60 (by norm_num) (by norm_num) (by norm_num)
    (by norm_num) (by norm_num) (by norm_num) (by norm_num)

/-- C10: the rate limiter is one global bucket with no client identity: the
handler threads every request, whatever its body (any mixture of clients and
URLs, valid or not), through the single shared limiter, so after five requests
at time t from any combination of callers, a sixth request at time u still
inside the window is answered 429 with wait time 60 - (u - t), for every
body. -/
theorem global_rate_limiter_shared_bucket
    (b1 b2 b3 b4 b5 b6 : Option String) (t u : ℚ) (h0 : 0 ≤ u - t) (hu : u - t < 60) :
    (download_pre (downloadAfter (downloadAfter (downloadAfter (downloadAfter
        (downloadAfter rate_limiter_init t b1) t b2) t b3) t b4) t b5) u b6).1
      = .rateLimited (60 - (u - t)) ∧
    (PreOutcome.rateLimited (60 - (u - t))).statusCode = some 429 := by
  have step : ∀ (rl : RateLimiter) (b : Option String) (now : ℚ),
      downloadAfter rl now b = (check_rate_limit rl now).state := by
    intro rl b now
    exact download_pre_state rl now b
  have h1 : downloadAfter rate_limiter_init t b1 = ⟨5, 60, [t]⟩ := by
    rw [step, check_rate_limit_admitted rate_limiter_init t (by simp [rate_limiter_init])
      (by simp [rate_limiter_init])]
    rfl
  have mem2 : ∀ r ∈ [t], t - r < (60 : ℚ) := by
    intro r hr; simp at hr; subst hr; norm_num
  have h2 : downloadAfter (⟨5, 60, [t]⟩ : RateLimiter) t b2 = ⟨5, 60, [t, t]⟩ := by
    rw [step, check_rate_limit_admitted ⟨5, 60, [t]⟩ t mem2 (by simp)]
    rfl
  have mem3 : ∀ r ∈ [t, t], t - r < (60 : ℚ) := by
    intro r hr; simp at hr; subst hr; norm_num
  have h3 : downloadAfter (⟨5, 60, [t, t]⟩ : RateLimiter) t b3 = ⟨5, 60, [t, t, t]⟩ := by
    rw [step, check_rate_limit_admitted ⟨5, 60, [t, t]⟩ t mem3 (by simp)]
    rfl
  have mem4 : ∀ r ∈ [t, t, t], t - r < (60 : ℚ) := by
    intro r hr; simp at hr; subst hr; norm_num
  have h4 : downloadAfter (⟨5, 60, [t, t, t]⟩ : RateLimiter) t b4 = ⟨5, 60, [t, t, t, t]⟩ := by
    rw [step, check_rate_limit_admitted ⟨5, 60, [t, t, t]⟩ t mem4 (by simp)]
    rfl
  have mem5 : ∀ r ∈ [t, t, t, t], t - r < (60 : ℚ) := by
    intro r hr; simp at hr; subst hr; norm_num
  have h5 : downloadAfter (⟨5, 60, [t, t, t, t]⟩ : RateLimiter) t b5
      = ⟨5, 60, [t, t, t, t, t]⟩ := by
    rw [step, check_rate_limit_admitted ⟨5, 60, [t, t, t, t]⟩ t mem5 (by simp)]
    rfl
  have mem6 : ∀ r ∈ [t, t, t, t, t], u - r < (60 : ℚ) := by
    intro r hr; simp at hr; subst hr; linarith
  have h6 : check_rate_limit ⟨5, 60, [t, t, t, t, t]⟩ u
      = .limited (60 - (u - t)) ⟨5, 60, [t, t, t, t, t]⟩ :=
    check_rate_limit_limited ⟨5, 60, [t, t, t, t, t]⟩ u mem6 (by simp)
  rw [h1, h2, h3, h4, h5, download_pre_limited _ _ _ _ b6 h6]
  exact ⟨rfl, rfl⟩

/-- Helper: when every entry is removable the sweep removes exactly the stale
regular files and keeps everything else, in order. -/
theorem cleanup_all_removable (now : ℚ) (gs : List FileEntry)
    (h : ∀ g ∈ gs, g.removable = true) :
    cleanup_old_files now gs
      = gs.filter (fun g => !(g.isFile && decide (1800 < now - g.mtime))) := by
  induction gs with
  | nil => rfl
  | cons g gs ih =>
    have hg : g.removable = true := h g (List.mem_cons_self g gs)
    have hgs : ∀ x ∈ gs, x.removable = true := fun x hx => h x (List.mem_cons_of_mem g hx)
    by_cases hc : (g.isFile && decide (1800 < now - g.mtime)) = true
    · simp only [cleanup_old_files, List.filter_cons]
      rw [if_pos hc, if_pos hg, ih hgs, if_neg (by rw [hc]; simp)]
    · simp only [cleanup_old_files, List.filter_cons]
      rw [if_neg hc, ih hgs, if_pos ?_]
      rw [Bool.not_eq_true] at hc
      rw [hc]
      rfl

/-- C3 counterexample: deletions are not independent.  At time 10000 both
files "a" and "b" are stale regular files (mtime 0, age 10000 > 1800) and "b"
is deletable, but because removing "a" raises a permission error first, the
sweep aborts and "b" is retained as well. -/
theorem cleanup_sweep_counterexample :
    ((1800 : ℚ) < 10000 - 0) ∧
    cleanup_old_files 10000
        [⟨"a", true, 0, false⟩, ⟨"b", true, 0, true⟩]
      = [⟨"a", true, 0, false⟩, ⟨"b", true, 0, true⟩] := by
  constructor
  · norm_num
  · have h : (true && decide ((1800 : ℚ) < 10000 - 0)) = true := by
      simp; norm_num
    simp only [cleanup_old_files]
    rw [if_pos h, if_neg (by simp)]

/-- C3 amended: the sweep aborts at the first failed deletion: when a stale
regular file f cannot be removed, f and every entry after it are retained
untouched (the exception is caught, so the request proceeds); when no deletion
fails, the sweep removes exactly the stale regular files and keeps the rest. -/
theorem cleanup_sweep_abort_on_failure (now : ℚ) (f : FileEntry) (fs gs : List FileEntry)
    (hf : f.isFile = true) (hst : 1800 < now - f.mtime) (hrm : f.removable = false)
    (hgs : ∀ g ∈ gs, g.removable = true) :
    cleanup_old_files now (f :: fs) = f :: fs ∧
    cleanup_old_files now gs
      = gs.filter (fun g => !(g.isFile && decide (1800 < now - g.mtime))) := by
  constructor
  · have h : (f.isFile && decide (1800 < now - f.mtime)) = true := by
      rw [hf, decide_eq_true hst]
      rfl
    simp only [cleanup_old_files]
    rw [if_pos h, if_neg (by simp [hrm])]
  · exact cleanup_all_removable now gs hgs

/-- Witness for the C3 amended theorem: a locked stale file aborts the sweep
in front of a deletable stale file; an error-free sweep deletes the stale file
and keeps the fresh one. -/
theorem cleanup_sweep_abort_on_failure_witness :
    cleanup_old_files 2000 [⟨"locked", true, 0, false⟩, ⟨"b", true, 0, true⟩]
      = [⟨"locked", true, 0, false⟩, ⟨"b", true, 0, true⟩] ∧
    cleanup_old_files 2000 [⟨"stale", true, 0, true⟩, ⟨"fresh", true, 1999, true⟩]
      = [⟨"stale", true, 0, true⟩, ⟨"fresh", true, 1999, true⟩].filter
          (fun g => !(g.isFile && decide ((1800 : ℚ) < 2000 - g.mtime))) :=
  cleanup_sweep_abort_on_failure 2000 ⟨"locked", true, 0, false⟩
    [⟨"b", true, 0, true⟩] [⟨"stale", true, 0, true⟩, ⟨"fresh", true, 1999, true⟩]
    rfl (by norm_num) rfl
    (by intro g hg; simp at hg; rcases hg with rfl | rfl <;> rfl)

/-- C4: contrary to the spec requirement, `serve_file` rejects no filename:
a filename with a leading slash resolves outside the managed directory (the
join discards the managed directory entirely) and is served when it exists,
and a filename containing ".." is likewise resolved and served rather than
rejected. -/
theorem serve_file_no_traversal_rejection :
    serve_file "/etc/passwd" (fun _ => true) = .served "/etc/passwd" ∧
    DOWNLOAD_DIR.toList.isPrefixOf ("/etc/passwd").toList = false ∧
    strContains "../escape.mp4" ".." = true ∧
    serve_file "../escape.mp4" (fun _ => true)
      = .served "/tmp/downloads/../escape.mp4" := by
  refine ⟨by decide, by decide, by decide, by decide⟩

/-- C6 counterexample: classification is case-sensitive, not case-insensitive:
the message "private" (which contains "private" but not "Private video") is
classified as a generic 500 failure with the raw message, not as the 403
private-video response the claim requires. -/
theorem error_classification_counterexample :
    strContains "private" "private" = true ∧
    handle_extractor_error "private" true
      = { status := 500, error := "Download failed: private",
          message := none, solutions := [] } ∧
    (handle_extractor_error "private" true).status ≠ 403 := by
  refine ⟨by decide, by decide, by decide⟩

/-- C6 amended: classification is by case-sensitive substring containment in
source order: a message containing "Unable to extract webpage video data" is
handled by the cookie branch (503); otherwise one containing "Private video"
maps to 403 "This video is private"; otherwise one containing "Video
unavailable" or "404" maps to 404; every other message maps to 500 with the
raw message preserved; there is no branch for "forbidden" or "403". -/
theorem error_classification_source_order (msg : String) (ck : Bool)
    (hU : strContains msg "Unable to extract webpage video data" = false) :
    (strContains msg "Private video" = true →
      handle_extractor_error msg ck
        = { status := 403, error := "This video is private",
            message := none, solutions := [] }) ∧
    (strContains msg "Private video" = false →
      (strContains msg "Video unavailable" = true ∨ strContains msg "404" = true) →
      handle_extractor_error msg ck
        = { status := 404, error := "Video not found or has been deleted",
            message := none, solutions := [] }) ∧
    (strContains msg "Private video" = false →
      strContains msg "Video unavailable" = false → strContains msg "404" = false →
      handle_extractor_error msg ck
        = { status := 500, error := "Download failed: " ++ msg,
            message := none, solutions := [] }) := by
  refine ⟨?_, ?_, ?_⟩
  · intro hP
    simp [handle_extractor_error, hU, hP]
  · intro hP hV
    rcases hV with hV | hV <;> simp [handle_extractor_error, hU, hP, hV]
  · intro hP hV h4
    simp [handle_extractor_error, hU, hP, hV, h4]

/-- Witness for the C6 amended theorem at the message "Private video". -/
theorem error_classification_source_order_witness :
    handle_extractor_error "Private video" true
      = { status := 403, error := "This video is private",
          message := none, solutions := [] } :=
  (error_classification_source_order "Private video" true (by decide)).1 (by decide)

/-- C7: an extraction failure carrying the session-rejection signature
"Unable to extract webpage video data" is answered 503 in both credential
states, with distinct messages: one says the server lacks a cookies.txt file
and lists remediation steps for adding it, the other says the existing
cookies file may be expired and lists steps for refreshing it. -/
theorem auth_failure_remediation (msg : String)
    (h : strContains msg "Unable to extract webpage video data" = true) :
    handle_extractor_error msg false
      = { status := 503
          error := "TikTok extraction failed - Cookies required"
          message := some "This error occurs because TikTok blocks automated requests. The server needs a cookies.txt file to work."
          solutions :=
            ["Server administrator needs to add cookies.txt file",
             "Cookies should be exported from a logged-in TikTok session",
             "Cookies expire every few hours and need regular updates"] } ∧
    handle_extractor_error msg true
      = { status := 503
          error := "TikTok extraction failed - Cookies may be expired"
          message := some "The cookies file exists but may be outdated. TikTok cookies expire frequently."
          solutions :=
            ["Update cookies.txt with fresh cookies from browser",
             "Ensure you\x27re logged into TikTok when exporting cookies",
             "Try again in a few minutes (TikTok may be rate limiting)"] } ∧
    (handle_extractor_error msg false).error ≠ (handle_extractor_error msg true).error := by
  refine ⟨by simp [handle_extractor_error, h], by simp [handle_extractor_error, h], ?_⟩
  simp [handle_extractor_error, h]

/-- Witness for C7 at the signature message itself. -/
theorem auth_failure_remediation_witness :
    handle_extractor_error "Unable to extract webpage video data" false
      = { status := 503
          error := "TikTok extraction failed - Cookies required"
          message := some "This error occurs because TikTok blocks automated requests. The server needs a cookies.txt file to work."
          solutions :=
            ["Server administrator needs to add cookies.txt file",
             "Cookies should be exported from a logged-in TikTok session",
             "Cookies expire every few hours and need regular updates"] } ∧
    handle_extractor_error "Unable to extract webpage video data" true
      = { status := 503
          error := "TikTok extraction failed - Cookies may be expired"
          message := some "The cookies file exists but may be outdated. TikTok cookies expire frequently."
          solutions :=
            ["Update cookies.txt with fresh cookies from browser",
             "Ensure you\x27re logged into TikTok when exporting cookies",
             "Try again in a few minutes (TikTok may be rate limiting)"] } ∧
    (handle_extractor_error "Unable to extract webpage video data" false).error
      ≠ (handle_extractor_error "Unable to extract webpage video data" true).error :=
  auth_failure_remediation "Unable to extract webpage video data" (by decide)

/-- C8 counterexample: the filename is never derived from the content
identifier.  Against the stubbed extractor result with id
"1234567890123456789", ext "mp4", title "T", uploader "U" and the file written
at the requested output path, the response is success with title "T" and
author "U" at HTTP 200, but its filename is "tiktok_abcd1234.mp4" (from the
random token), not "1234567890123456789.mp4". -/
theorem filename_counterexample :
    download_success "http://h"
        ⟨some "T", some "U", none, none, none, "1234567890123456789", "mp4"⟩
        "abcd1234" "/tmp/downloads/tiktok_abcd1234.mp4" (fun _ => true)
      = some { status := 200, success := true,
               video := "/files/tiktok_abcd1234.mp4",
               full_url := "http://h/files/tiktok_abcd1234.mp4",
               title := "T", author := "U",
               caption := "No caption available", thumbnail := "",
               filename := "tiktok_abcd1234.mp4",
               message := "Video downloaded successfully" } ∧
    "tiktok_abcd1234.mp4" ≠ "1234567890123456789.mp4" := by
  refine ⟨by decide, by decide⟩

/-- C8 amended: for every metadata result and random token, when the file
exists at the requested output path the response is HTTP 200 with success
true, title and author taken from the metadata, and filename
"tiktok_" ++ token ++ ".mp4" — the content identifier plays no part in the
name (only the token does), though the name always carries the media
extension. -/
theorem filename_random_token (base : String) (info : MediaInfo) (uid actual : String)
    (exists_at : String → Bool)
    (hex : exists_at (path_join DOWNLOAD_DIR (make_output_filename uid)) = true) :
    download_success base info uid actual exists_at
      = some (success_response base info ("tiktok_" ++ uid ++ ".mp4")) ∧
    (success_response base info ("tiktok_" ++ uid ++ ".mp4")).filename
      = "tiktok_" ++ uid ++ ".mp4" ∧
    (success_response base info ("tiktok_" ++ uid ++ ".mp4")).status = 200 ∧
    (success_response base info ("tiktok_" ++ uid ++ ".mp4")).success = true ∧
    (success_response base info ("tiktok_" ++ uid ++ ".mp4")).title
      = info.title.getD "TikTok Video" ∧
    (success_response base info ("tiktok_" ++ uid ++ ".mp4")).author
      = info.uploader.getD (info.creator.getD "Unknown") := by
  refine ⟨?_, rfl, rfl, rfl, rfl, rfl⟩
  simp only [download_success]
  rw [if_pos hex]
  rfl

/-- Witness for the C8 amended theorem at the stubbed extractor result of the
end-to-end scenario. -/
theorem filename_random_token_witness :
    download_success "http://h"
        ⟨some "T", some "U", none, none, none, "1234567890123456789", "mp4"⟩
        "feedc0de" "ignored" (fun _ => true)
      = some (success_response "http://h"
          ⟨some "T", some "U", none, none, none, "1234567890123456789", "mp4"⟩
          ("tiktok_" ++ "feedc0de" ++ ".mp4")) ∧
    (success_response "http://h"
        ⟨some "T", some "U", none, none, none, "1234567890123456789", "mp4"⟩
        ("tiktok_" ++ "feedc0de" ++ ".mp4")).filename = "tiktok_" ++ "feedc0de" ++ ".mp4" ∧
    (success_response "http://h"
        ⟨some "T", some "U", none, none, none, "1234567890123456789", "mp4"⟩
        ("tiktok_" ++ "feedc0de" ++ ".mp4")).status = 200 ∧
    (success_response "http://h"
        ⟨some "T", some "U", none, none, none, "1234567890123456789", "mp4"⟩
        ("tiktok_" ++ "feedc0de" ++ ".mp4")).success = true ∧
    (success_response "http://h"
        ⟨some "T", some "U", none, none, none, "1234567890123456789", "mp4"⟩
        ("tiktok_" ++ "feedc0de" ++ ".mp4")).title
      = (Option.some "T").getD "TikTok Video" ∧
    (success_response "http://h"
        ⟨some "T", some "U", none, none, none, "1234567890123456789", "mp4"⟩
        ("tiktok_" ++ "feedc0de" ++ ".mp4")).author
      = (Option.some "U").getD ((Option.none).getD "Unknown") :=
  filename_random_token "http://h"
    ⟨some "T", some "U", none, none, none, "1234567890123456789", "mp4"⟩
    "feedc0de" "ignored" (fun _ => true) rfl

/-- C1 counterexample: validation is not host-based.  The URL
"https://evil.example/x?ref=tiktok.com" has host "evil.example", which matches
no allow-listed domain, yet the handler accepts it and proceeds to backend
extraction, because the substring "tiktok.com" occurs in its query string. -/
theorem url_validation_not_host_based_counterexample :
    hostOf "https://evil.example/x?ref=tiktok.com" = "evil.example" ∧
    (valid_domains.all fun d =>
      !hostMatches (hostOf "https://evil.example/x?ref=tiktok.com") d) = true ∧
    (download_pre rate_limiter_init 0 (some "https://evil.example/x?ref=tiktok.com")).1
      = .extract "https://evil.example/x?ref=tiktok.com" ∧
    ((download_pre rate_limiter_init 0
        (some "https://evil.example/x?ref=tiktok.com")).1).invokesBackend = true := by
  refine ⟨by decide, by decide, by decide, by decide⟩

/-- C1 amended: the URL check is substring containment, not host matching: an
admitted request whose URL does not contain any of the strings "tiktok.com",
"vm.tiktok.com", "vt.tiktok.com" anywhere is answered with the 400
"Invalid TikTok URL" response and no backend extraction is invoked; a URL
containing one of those strings anywhere (host or not) passes this check. -/
theorem url_validation_substring_containment
    (rl st : RateLimiter) (now : ℚ) (url : String)
    (hadm : check_rate_limit rl now = .admitted st)
    (hno : (valid_domains.any fun d => strContains url d) = false) :
    (download_pre rl now (some url)).1 = .invalidUrl ∧
    ((download_pre rl now (some url)).1).statusCode = some 400 ∧
    ((download_pre rl now (some url)).1).errorMsg = some "Invalid TikTok URL" ∧
    ((download_pre rl now (some url)).1).invokesBackend = false := by
  have h := download_pre_invalid rl st now url hadm hno
  rw [h]
  exact ⟨rfl, rfl, rfl, rfl⟩

/-- Witness for the C1 amended theorem at the initial limiter state and a URL
containing no allow-listed domain string. -/
theorem url_validation_substring_containment_witness :
    (download_pre rate_limiter_init 0 (some "https://example.org/page")).1 = .invalidUrl ∧
    ((download_pre rate_limiter_init 0 (some "https://example.org/page")).1).statusCode
      = some 400 ∧
    ((download_pre rate_limiter_init 0 (some "https://example.org/page")).1).errorMsg
      = some "Invalid TikTok URL" ∧
    ((download_pre rate_limiter_init 0 (some "https://example.org/page")).1).invokesBackend
      = false :=
  url_validation_substring_containment rate_limiter_init ⟨5, 60, [0]⟩ 0
    "https://example.org/page" (by decide) (by decide)

/-- C2 counterexample: the rate-limit check runs before URL validation.  With
the shared window already full (five timestamps at time 10), a request at time
20 whose URL is invalid is answered 429 with wait 60 - (20 - 10), not the
validator's 400; and from the initial state an invalid-URL request at time 0
still appends its timestamp to the shared budget. -/
theorem rate_limit_before_validation_counterexample :
    (valid_domains.any fun d => strContains "https://example.org/page" d) = false ∧
    (download_pre ⟨5, 60, [10, 10, 10, 10, 10]⟩ 20 (some "https://example.org/page")).1
      = .rateLimited (60 - (20 - 10)) ∧
    download_pre rate_limiter_init 0 (some "https://example.org/page")
      = (.invalidUrl, ⟨5, 60, [0]⟩) := by
  refine ⟨by decide, ?_, by decide⟩
  have mem : ∀ r ∈ [(10 : ℚ), 10, 10, 10, 10], (20 : ℚ) - r < (60 : ℚ) := by
    intro r hr; simp at hr; subst hr; norm_num
  have h6 := check_rate_limit_limited ⟨5, 60, [10, 10, 10, 10, 10]⟩ 20 mem (by simp)
  rw [download_pre_limited _ _ _ _ _ h6]
  rfl

/-- C2 amended: the admission check precedes URL validation: whenever the
check rejects, the handler answers 429 for every body, valid or not; and
whatever the body, the limiter state after the call is the state the
admission check left (so an admitted request with an invalid URL still
consumes one unit of the window budget). -/
theorem rate_limit_before_validation
    (rl : RateLimiter) (now : ℚ) (body : Option String) :
    (∀ w st, check_rate_limit rl now = .limited w st →
      (download_pre rl now body).1 = .rateLimited w) ∧
    (download_pre rl now body).2 = (check_rate_limit rl now).state := by
  constructor
  · intro w st hc
    rw [download_pre_limited rl st now w body hc]
  · exact download_pre_state rl now body

/-- Witness for the C2 amended theorem: an invalid-URL request against a full
window is answered 429, and its final limiter state is the check's state. -/
theorem rate_limit_before_validation_witness :
    (download_pre ⟨5, 60, [10, 10, 10, 10, 10]⟩ 20 (some "https://example.org/not-ok")).1
      = .rateLimited (60 - (20 - 10)) ∧
    (download_pre ⟨5, 60, [10, 10, 10, 10, 10]⟩ 20 (some "https://example.org/not-ok")).2
      = (check_rate_limit ⟨5, 60, [10, 10, 10, 10, 10]⟩ 20).state := by
  have h := rate_limit_before_validation ⟨5, 60, [10, 10, 10, 10, 10]⟩ 20
    (some "https://example.org/not-ok")
  refine ⟨h.1 (60 - (20 - 10)) ⟨5, 60, [10, 10, 10, 10, 10]⟩ ?_, h.2⟩
  exact check_rate_limit_limited ⟨5, 60, [10, 10, 10, 10, 10]⟩ 20
    (by intro r hr; simp at hr; subst hr; norm_num) (by simp)

/-- C9 counterexample: not every URL containing "/photo/" gets the
UnsupportedContentType response: a photo URL that fails the domain-substring
check first is answered with the generic "Invalid TikTok URL" 400 instead of
the photo-specific message. -/
theorem photo_url_classification_counterexample :
    strContains "https://evil.example/photo/123" "/photo/" = true ∧
    (download_pre rate_limiter_init 0 (some "https://evil.example/photo/123")).1
      = .invalidUrl ∧
    ((download_pre rate_limiter_init 0 (some "https://evil.example/photo/123")).1).errorMsg
      = some "Invalid TikTok URL" ∧
    (download_pre rate_limiter_init 0 (some "https://evil.example/photo/123")).1
      ≠ .photoPost := by
  refine ⟨by decide, by decide, by decide, by decide⟩

/-- C9 amended: an admitted request whose URL contains an allow-listed domain
string and the "/photo/" marker is rejected with the 400 photo-post response
(a specific, non-retryable message) and no backend extraction is invoked;
photo URLs failing the domain check get the generic invalid-URL 400 instead. -/
theorem photo_url_rejected_without_backend
    (rl st : RateLimiter) (now : ℚ) (url : String)
    (hadm : check_rate_limit rl now = .admitted st)
    (hdom : (valid_domains.any fun d => strContains url d) = true)
    (hph : strContains url "/photo/" = true) :
    download_pre rl now (some url) = (.photoPost, st) ∧
    PreOutcome.photoPost.statusCode = some 400 ∧
    PreOutcome.photoPost.errorMsg = some
      "TikTok photo posts (slideshows) are not supported. Please try a video post instead." ∧
    PreOutcome.photoPost.invokesBackend = false := by
  exact ⟨download_pre_photo rl st now url hadm hdom hph, rfl, rfl, rfl⟩

/-- Witness for the C9 amended theorem at a well-formed photo-post URL. -/
theorem photo_url_rejected_without_backend_witness :
    download_pre rate_limiter_init 0 (some "https://www.tiktok.com/@user/photo/7")
      = (.photoPost, ⟨5, 60, [0]⟩) ∧
    PreOutcome.photoPost.statusCode = some 400 ∧
    PreOutcome.photoPost.errorMsg = some
      "TikTok photo posts (slideshows) are not supported. Please try a video post instead." ∧
    PreOutcome.photoPost.invokesBackend = false :=
  photo_url_rejected_without_backend rate_limiter_init ⟨5, 60, [0]⟩ 0
    "https://www.tiktok.com/@user/photo/7" (by decide) (by decide) (by decide)

/-- Witness for C10 with six differing bodies (modelling distinct clients,
one of them even a malformed request) at t = 0 and u = 30. -/
theorem global_rate_limiter_shared_bucket_witness :
    (download_pre (downloadAfter (downloadAfter (downloadAfter (downloadAfter
        (downloadAfter rate_limiter_init 0 (some "https://www.tiktok.com/@a/video/1")) 0
          (some "https://vm.tiktok.com/ZM1")) 0 none) 0
          (some "https://example.org/")) 0 (some "https://www.tiktok.com/@b/video/2")) 30
        (some "https://www.tiktok.com/@c/video/3")).1
      = .rateLimited (60 - (30 - 0)) ∧
    (PreOutcome.rateLimited (60 - (30 - 0))).statusCode = some 429 :=
  global_rate_limiter_shared_bucket (some "https://www.tiktok.com/@a/video/1")
    (some "https://vm.tiktok.com/ZM1") none (some "https://example.org/")
    (some "https://www.tiktok.com/@b/video/2") (some "https://www.tiktok.com/@c/video/3")
    0 30 (by norm_num) (by norm_num)

end TikTokApi
